import Mathlib

/-!
Shallow embedding of the DebatingAgents repository (src/Agent.py, src/Transcript.py,
src/main.py) and proofs about its specification claims.

The language-model backend (OpenAI chat-completions call) is modelled as an oracle
`Oracle : List Msg → Except Unit String`: given the exact message list the code would
send, it either returns the response text (the `content` of the first choice) or fails,
modelling a `CompletionError`.  Wall-clock timestamps (`datetime.now()` followed by
`strftime`) are modelled by a monotone tick counter stamped on each entry, together
with an arbitrary rendering function `tfmt : Nat → String` standing for the `strftime`
output of the moment the entry was appended.  Console output (`print`) is not part of
any observable state and is omitted; console input (`input()`) is modelled by a list of
operator input strings consumed in order, with exhaustion modelled as an EOF error
(`input()` at end of stream raises in Python).
-/

namespace DebatingAgents

/-- Model of one element of the `messages` list sent to the completion API:
a dict `{"role": ..., "content": ...}`. -/
structure Msg where
  role : String
  content : String
  deriving DecidableEq, Repr

/-- Model of a chat-completion backend: given the message list the code sends,
return the response text, or fail (a `CompletionError` such as auth failure or
rate limit). -/
def Oracle : Type := List Msg → Except Unit String

/-- Model of `Agent` (and its subclasses `Debater` / `Moderator`) from Agent.py.
`messages` is the system-prompt list built in `Agent.__init__` (extended by
`Debater.__init__`); `responses` models `self.responses`, the list of stored API
responses — the code stores the raw response object, of which the only part it
ever reads is the text content, so we store that text.  The base class never sets
`side`; `Debater.__init__` and `Moderator.__init__` do.  We carry `side` as a
string field left empty by the base constructor (base `Agent`s are never put in a
transcript by main.py, so their unset `side` is never read). -/
structure AgentState where
  name : String
  persona : String
  topic : String
  side : String
  messages : List Msg
  responses : List String
  deriving DecidableEq, Repr

/-- The four system messages assembled in `Agent.__init__` (Agent.py lines 61-66),
with the exact content strings of the source. -/
def baseMessages (name persona topic : String) : List Msg :=
  [⟨"system", "Your name is " ++ name ++ ". You are " ++ persona ++ "."⟩,
   ⟨"system", "Your responses should mimic real human conversation.  No headings or bullet points, just natural flowing text that aligns with your persona."⟩,
   ⟨"system", "The topic of discussion is: " ++ topic ++ "."⟩,
   ⟨"system", "Try not to repeat yourself or use similar phrases over and over again. Keep it fresh and engaging."⟩]

/-- Model of `Agent.__init__`: stores the identity fields and builds the initial
system-message list.  There is no validation of any argument in the source. -/
def mkAgent (name persona topic : String) : AgentState :=
  { name := name
    persona := persona
    topic := topic
    side := ""
    messages := baseMessages name persona topic
    responses := [] }

/-- The two extra system messages appended by `Debater.__init__`
(Agent.py lines 194-197), with the exact content strings of the source. -/
def debaterMessages (side : String) : List Msg :=
  [⟨"system", "You are on the " ++ side ++ " side of the argument.  You should always argue in favor of your side."⟩,
   ⟨"system", "Try to keep your responses to a maximum of 250 words."⟩]

/-- Model of `Debater.__init__`: runs the base constructor, records `side`, and
extends the system messages.  The source performs no check that `side` is
`Pro` or `Con` (the `Literal` annotation is not enforced at runtime) and no
check that `name` or `persona` is non-empty. -/
def mkDebater (name persona topic side : String) : AgentState :=
  let a := mkAgent name persona topic
  { a with side := side, messages := a.messages ++ debaterMessages side }

/-- Model of `Moderator.__init__`: the base constructor with `side` set to
`"Moderator"`.  No extra system messages, no validation. -/
def mkModerator (name persona topic : String) : AgentState :=
  let a := mkAgent name persona topic
  { a with side := "Moderator" }

/-- The exact message list `Agent.ask` sends to the completion API:
the agent's system messages followed by the related text as an assistant
message and the prompt as a user message (Agent.py lines 106-112). -/
def askMsgs (a : AgentState) (related_text meta_prompt : String) : List Msg :=
  a.messages ++ [⟨"assistant", related_text⟩, ⟨"user", meta_prompt⟩]

/-- Character-level model of Python's `s.replace("\n", "\n\t")`: every newline
becomes a newline followed by a tab. -/
def indentChars : List Char → List Char
  | [] => []
  | c :: cs => if c = '\n' then '\n' :: '\t' :: indentChars cs else c :: indentChars cs

/-- Model of the paragraph-indentation post-processing in `Agent.ask`
(Agent.py line 117): `response...content.replace("\n", "\n\t")`. -/
def indentParagraphs (s : String) : String := String.mk (indentChars s.data)

/-- Model of `Agent.ask` (Agent.py lines 74-119).  On oracle failure the
exception propagates and the agent is unchanged (the `responses.append` is
never reached).  On success the raw response text is appended to `responses`
and the returned text is the raw text, indented iff `indent_paragraphs`. -/
def ask (a : AgentState) (o : Oracle) (related_text meta_prompt : String)
    (indent_paragraphs : Bool) : Except Unit (String × AgentState) :=
  match o (askMsgs a related_text meta_prompt) with
  | .error e => .error e
  | .ok content =>
      let a2 : AgentState := { a with responses := a.responses ++ [content] }
      if indent_paragraphs then .ok (indentParagraphs content, a2)
      else .ok (content, a2)

/-- The name/side pair of an agent as read by the transcript rendering code
(`entry['agent'].name`, `entry['agent'].side`). -/
structure AgentInfo where
  name : String
  side : String
  deriving DecidableEq, Repr

/-- Projection of an agent to the fields the transcript reads.  `name` and
`side` are never mutated after construction, so storing this projection in an
entry is faithful to storing the agent object itself. -/
def AgentState.info (a : AgentState) : AgentInfo := ⟨a.name, a.side⟩

/-- Model of one element of `Transcript.messages`: a dict
`{"timestamp": ..., "agent": ..., "message": ...}`.  `tstamp` is the tick at
which `add_message` stamped the entry. -/
structure Entry where
  tstamp : Nat
  agent : AgentInfo
  message : String
  deriving DecidableEq, Repr

/-- Model of `Transcript.add_message` (Transcript.py lines 22-30): append one
entry stamped with the current time. -/
def addMessage (msgs : List Entry) (now : Nat) (a : AgentInfo) (message : String) :
    List Entry :=
  msgs ++ [⟨now, a, message⟩]

/-- The `"="*40` divider of Transcript.py. -/
def eqDivider : String := String.mk (List.replicate 40 '=')

/-- The `"-"*40 ` divider of Transcript.py. -/
def dashDivider : String := String.mk (List.replicate 40 '-')

/-- Model of `Transcript.print_transcript` (Transcript.py lines 32-63),
translated append-by-append: banner, then a loop over the messages, then the
end marker iff `final`. -/
def printTranscript (tfmt : Nat → String) (topic : String) (pro con : AgentInfo)
    (final : Bool) (msgs : List Entry) : String :=
  let r1 := "" ++ "[TRANSCRIPT OF DEBATE]\n\n" ++ eqDivider ++ "\n"
    ++ "Topic: " ++ topic ++ "\n"
    ++ "Pro: " ++ pro.name ++ "  |  Con: " ++ con.name ++ "\n"
    ++ eqDivider ++ "\n\n"
  let r2 := msgs.foldl
    (fun acc e =>
      acc ++ "[" ++ tfmt e.tstamp ++ "] " ++ e.agent.name ++ " (" ++ e.agent.side
        ++ "):\n\t" ++ e.message ++ "\n" ++ dashDivider ++ "\n\n") r1
  if final then r2 ++ eqDivider ++ "\n\n" ++ "[END OF DEBATE]" else r2

/-- Model of `Transcript.print_last_message` (Transcript.py lines 65-78):
empty string on an empty transcript, otherwise the last entry formatted as in
the source's f-string (which ends in a blank line instead of the divider). -/
def printLastMessage (tfmt : Nat → String) (msgs : List Entry) : String :=
  match msgs.getLast? with
  | none => ""
  | some e =>
      "[" ++ tfmt e.tstamp ++ "] " ++ e.agent.name ++ " (" ++ e.agent.side
        ++ "):\n\t" ++ e.message ++ "\n\n"

/-- Model of `Transcript.save_transcript` (Transcript.py lines 80-91): the
string written to the export file is the full render with `final=True`. -/
def saveTranscript (tfmt : Nat → String) (topic : String) (pro con : AgentInfo)
    (msgs : List Entry) : String :=
  printTranscript tfmt topic pro con true msgs

/-- The per-entry format shared by `print_transcript` and
`print_last_message`: `[timestamp] Name (side):` then newline, tab and the
message, closed by a newline. -/
def entryLine (tfmt : Nat → String) (e : Entry) : String :=
  "[" ++ tfmt e.tstamp ++ "] " ++ e.agent.name ++ " (" ++ e.agent.side
    ++ "):\n\t" ++ e.message ++ "\n"

/-- One rendered entry of `print_transcript`: the per-entry format followed by
the 40-dash divider and a blank line. -/
def entryBlock (tfmt : Nat → String) (e : Entry) : String :=
  entryLine tfmt e ++ dashDivider ++ "\n\n"

/-- The fixed banner of `print_transcript`: title, topic line, and the
`Pro: X  |  Con: Y` line between 40-equals rules. -/
def bannerStr (topic : String) (pro con : AgentInfo) : String :=
  "[TRANSCRIPT OF DEBATE]\n\n" ++ eqDivider ++ "\n"
    ++ "Topic: " ++ topic ++ "\n"
    ++ "Pro: " ++ pro.name ++ "  |  Con: " ++ con.name ++ "\n"
    ++ eqDivider ++ "\n\n"

/-- The end-of-debate marker appended by `print_transcript` when `final`. -/
def endMarker : String := eqDivider ++ "\n\n" ++ "[END OF DEBATE]"

/-- Plain concatenation of a list of strings, in order. -/
def joinStr : List String → String
  | [] => ""
  | s :: rest => s ++ joinStr rest

/-- ASCII model of Python's `str.lower` on one character (the only inputs the
controller compares after lowering are the sentinels `q` and `n`). -/
def lowerChar (c : Char) : Char :=
  if 'A' ≤ c ∧ c ≤ 'Z' then Char.ofNat (c.toNat + 32) else c

/-- ASCII model of Python's `str.lower`, used for the sentinel comparisons
`moderation.lower() == 'q'` and `moderation.lower() == 'n'` in main.py. -/
def lowerStr (s : String) : String := String.mk (s.data.map lowerChar)

/-- Record of one turn invocation of `Agent.ask` made by the main loop:
which agent was asked, the rendered context it was given as `related_text`,
and the instruction it was given as `meta_prompt`.  This is observational
instrumentation of the controller; it has no effect on the run. -/
structure CallRec where
  agent : String
  related : String
  instr : String
  deriving DecidableEq, Repr

/-- The state threaded through the `__main__` debate loop of main.py:
the tick clock, the transcript entry list, the three agents, and the
instrumentation trace of turn calls. -/
structure DebateState where
  clock : Nat
  transcript : List Entry
  proA : AgentState
  conA : AgentState
  modA : AgentState
  calls : List CallRec
  deriving DecidableEq, Repr

/-- How a run of the main loop can abort: a `CompletionError` propagating out
of `Agent.ask`, or the operator input stream running dry (`input()` at EOF). -/
inductive RunErr where
  | completion
  | eof
  deriving DecidableEq, Repr

/-- The rendered transcript fed as context to each turn call:
`transcript.print_transcript(topic, pro_agent, con_agent)` in main.py. -/
def renderCtx (tfmt : Nat → String) (topic : String) (st : DebateState) : String :=
  printTranscript tfmt topic st.proA.info st.conA.info false st.transcript

/-- A `transcript.add_message(moderator, text)` step of main.py. -/
def modMessage (st : DebateState) (text : String) : DebateState :=
  { st with
    transcript := addMessage st.transcript st.clock st.modA.info text
    clock := st.clock + 1 }

/-- One Pro turn of main.py: render the transcript, call `pro_agent.ask` with
the given instruction (default `indent_paragraphs=True`), and on success
append the returned text as Pro's entry.  On a completion failure nothing is
appended and the state is returned unchanged alongside the error. -/
def proTurn (o : Oracle) (tfmt : Nat → String) (topic instr : String)
    (st : DebateState) : Except (RunErr × DebateState) DebateState :=
  let ctx := renderCtx tfmt topic st
  match ask st.proA o ctx instr true with
  | .error _ => .error (.completion, st)
  | .ok (text, a2) =>
      .ok { st with
        proA := a2
        transcript := addMessage st.transcript st.clock st.proA.info text
        clock := st.clock + 1
        calls := st.calls ++ [⟨st.proA.name, ctx, instr⟩] }

/-- One Con turn of main.py, symmetric to `proTurn`. -/
def conTurn (o : Oracle) (tfmt : Nat → String) (topic instr : String)
    (st : DebateState) : Except (RunErr × DebateState) DebateState :=
  let ctx := renderCtx tfmt topic st
  match ask st.conA o ctx instr true with
  | .error _ => .error (.completion, st)
  | .ok (text, a2) =>
      .ok { st with
        conA := a2
        transcript := addMessage st.transcript st.clock st.conA.info text
        clock := st.clock + 1
        calls := st.calls ++ [⟨st.conA.name, ctx, instr⟩] }

/-- The fixed instruction of the topic-round turns in main.py
(lines 138 and 141). -/
def openingInstr : String := "Make your opening argument to the moderator's prompt."

/-- The fixed instruction of the rebuttal turns in main.py (lines 149, 152). -/
def rebuttalInstr : String := "Rebuttal."

/-- The fixed instruction of the closing turns in main.py (lines 157, 160). -/
def closingInstr : String := "Closing statement."

/-- The fixed moderator text appended before the closing statements
(main.py line 155). -/
def closingAnnouncement : String :=
  "Thank you both for your participation in this debate. Now, please give your closing statements."

/-- The instruction of the two pre-debate warm-up calls (main.py lines 124-125). -/
def setupInstr : String :=
  "Give the moderator a list of what you would like to talk about in the debate."

/-- One non-quit topic round of the outer loop (main.py lines 136-142): the
operator instruction is appended as a moderator entry, then Pro speaks, then
Con speaks, both with the fixed opening instruction. -/
def topicRound (o : Oracle) (tfmt : Nat → String) (topic moderation : String)
    (st : DebateState) : Except (RunErr × DebateState) DebateState :=
  match proTurn o tfmt topic openingInstr (modMessage st moderation) with
  | .error e => .error e
  | .ok st2 => conTurn o tfmt topic openingInstr st2

/-- One rebuttal round of the inner loop (main.py lines 149-153): Pro then Con,
each with the fixed instruction `Rebuttal.`; no moderator entry. -/
def rebuttalRound (o : Oracle) (tfmt : Nat → String) (topic : String)
    (st : DebateState) : Except (RunErr × DebateState) DebateState :=
  match proTurn o tfmt topic rebuttalInstr st with
  | .error e => .error e
  | .ok st2 => conTurn o tfmt topic rebuttalInstr st2

/-- The code after the outer loop (main.py lines 155-161): the fixed moderator
closing announcement, then Pro's and Con's closing statements. -/
def closingPhase (o : Oracle) (tfmt : Nat → String) (topic : String)
    (st : DebateState) : Except (RunErr × DebateState) DebateState :=
  match proTurn o tfmt topic closingInstr (modMessage st closingAnnouncement) with
  | .error e => .error e
  | .ok st2 => conTurn o tfmt topic closingInstr st2

/-- The two operator-prompt points of the main loop: the outer
`What would you like ... to respond to? (q to end debate)` prompt and the
inner `Would you like a(nother) round of rebuttals? (y/n)` prompt. -/
inductive Mode where
  | topicPrompt
  | rebuttalPrompt
  deriving DecidableEq, Repr

/-- The interleaved pair of `while True` loops of main.py (lines 130-153),
driven by the list of operator inputs, plus the closing phase entered on the
quit sentinel.  Exhausting the inputs models `input()` raising at EOF, which
in the source aborts the process before any closing statement. -/
def loop (o : Oracle) (tfmt : Nat → String) (topic : String) :
    List String → Mode → DebateState → Except (RunErr × DebateState) DebateState
  | [], _, st => .error (.eof, st)
  | i :: rest, Mode.topicPrompt, st =>
      if lowerStr i = "q" then closingPhase o tfmt topic st
      else
        match topicRound o tfmt topic i st with
        | .error e => .error e
        | .ok st2 => loop o tfmt topic rest Mode.rebuttalPrompt st2
  | i :: rest, Mode.rebuttalPrompt, st =>
      if lowerStr i = "n" then loop o tfmt topic rest Mode.topicPrompt st
      else
        match rebuttalRound o tfmt topic st with
        | .error e => .error e
        | .ok st2 => loop o tfmt topic rest Mode.rebuttalPrompt st2

/-- The main loop followed by `transcript.save_transcript` (main.py line 163):
on a normal (quit-sentinel) finish the finalized render is exported.  The
second component of the result is the exported file content. -/
def runLoopAndSave (o : Oracle) (tfmt : Nat → String) (topic : String)
    (inputs : List String) (st : DebateState) :
    Except (RunErr × DebateState) (DebateState × String) :=
  match loop o tfmt topic inputs Mode.topicPrompt st with
  | .error e => .error e
  | .ok st2 => .ok (st2, saveTranscript tfmt topic st2.proA.info st2.conA.info st2.transcript)

/-- The whole `__main__` block of main.py after the interactive
personality/topic selection: create the two debaters and the `User` moderator,
make the two warm-up calls (printed only, `indent_paragraphs=False`), append
the operator's introduction as the first transcript entry, then run the loop
and export. -/
def runMain (o : Oracle) (tfmt : Nat → String)
    (topic proName proPersona conName conPersona intro : String)
    (inputs : List String) :
    Except (RunErr × DebateState) (DebateState × String) :=
  let pro0 := mkDebater proName proPersona topic "Pro"
  let con0 := mkDebater conName conPersona topic "Con"
  let moda := mkModerator "User" "The User" topic
  match ask pro0 o "" setupInstr false with
  | .error _ => .error (.completion, ⟨0, [], pro0, con0, moda, []⟩)
  | .ok (_, pro1) =>
      match ask con0 o "" setupInstr false with
      | .error _ => .error (.completion, ⟨0, [], pro1, con0, moda, []⟩)
      | .ok (_, con1) =>
          runLoopAndSave o tfmt topic inputs
            (modMessage ⟨0, [], pro1, con1, moda, []⟩ intro)

/-! Helper lemmas shared by the claim theorems. -/

/-- The message loop of `print_transcript` appends one `entryBlock` per entry,
in order, to whatever has been accumulated so far. -/
theorem foldl_entryBlock (tfmt : Nat → String) :
    ∀ (msgs : List Entry) (init : String),
      msgs.foldl
        (fun acc e =>
          acc ++ "[" ++ tfmt e.tstamp ++ "] " ++ e.agent.name ++ " (" ++ e.agent.side
            ++ "):\n\t" ++ e.message ++ "\n" ++ dashDivider ++ "\n\n") init
      = init ++ joinStr (msgs.map (entryBlock tfmt))
  | [], init => by simp [joinStr, String.append_empty]
  | e :: rest, init => by
      rw [List.foldl_cons, foldl_entryBlock tfmt rest]
      simp [joinStr, entryBlock, entryLine, String.append_assoc]

/-- Decomposition of `print_transcript`: the fixed banner, then the entry
blocks in append order, then the end marker iff `final`. -/
theorem printTranscript_decomp (tfmt : Nat → String) (topic : String)
    (pro con : AgentInfo) (final : Bool) (msgs : List Entry) :
    printTranscript tfmt topic pro con final msgs
      = bannerStr topic pro con ++ joinStr (msgs.map (entryBlock tfmt))
        ++ (if final then endMarker else "") := by
  simp only [printTranscript]
  rw [foldl_entryBlock]
  cases final <;>
    simp [bannerStr, endMarker, String.append_assoc, String.empty_append,
      String.append_empty]

/-- Behaviour of `Agent.ask` when the completion succeeds: the raw response is
appended to `responses` (and nothing else changes), and the returned text is
the raw response, indented iff `indent_paragraphs`. -/
theorem ask_ok (a : AgentState) (o : Oracle) (rt mp : String) (ind : Bool)
    (r : String) (h : o (askMsgs a rt mp) = .ok r) :
    ask a o rt mp ind
      = .ok ((if ind then indentParagraphs r else r),
             { a with responses := a.responses ++ [r] }) := by
  unfold ask
  rw [h]
  cases ind <;> simp

/-- Behaviour of `Agent.ask` when the completion fails: the error propagates
and there is no result. -/
theorem ask_error (a : AgentState) (o : Oracle) (rt mp : String) (ind : Bool)
    (h : o (askMsgs a rt mp) = .error ()) :
    ask a o rt mp ind = .error () := by
  unfold ask
  rw [h]

/-- A successful Pro turn appends exactly one Pro entry carrying the indented
response, records the call, stores the raw response, and changes nothing else. -/
theorem proTurn_ok (o : Oracle) (tfmt : Nat → String) (topic instr : String)
    (st : DebateState) (r : String)
    (h : o (askMsgs st.proA (renderCtx tfmt topic st) instr) = .ok r) :
    proTurn o tfmt topic instr st = .ok
      { st with
        proA := { st.proA with responses := st.proA.responses ++ [r] }
        transcript := st.transcript ++ [⟨st.clock, st.proA.info, indentParagraphs r⟩]
        clock := st.clock + 1
        calls := st.calls ++ [⟨st.proA.name, renderCtx tfmt topic st, instr⟩] } := by
  simp only [proTurn]
  rw [ask_ok st.proA o _ instr true r h]
  simp [addMessage]

/-- A failed Pro turn aborts with the state unchanged: no entry is appended. -/
theorem proTurn_error (o : Oracle) (tfmt : Nat → String) (topic instr : String)
    (st : DebateState)
    (h : o (askMsgs st.proA (renderCtx tfmt topic st) instr) = .error ()) :
    proTurn o tfmt topic instr st = .error (.completion, st) := by
  simp only [proTurn]
  rw [ask_error st.proA o _ instr true h]

/-- A successful Con turn appends exactly one Con entry carrying the indented
response, records the call, stores the raw response, and changes nothing else. -/
theorem conTurn_ok (o : Oracle) (tfmt : Nat → String) (topic instr : String)
    (st : DebateState) (r : String)
    (h : o (askMsgs st.conA (renderCtx tfmt topic st) instr) = .ok r) :
    conTurn o tfmt topic instr st = .ok
      { st with
        conA := { st.conA with responses := st.conA.responses ++ [r] }
        transcript := st.transcript ++ [⟨st.clock, st.conA.info, indentParagraphs r⟩]
        clock := st.clock + 1
        calls := st.calls ++ [⟨st.conA.name, renderCtx tfmt topic st, instr⟩] } := by
  simp only [conTurn]
  rw [ask_ok st.conA o _ instr true r h]
  simp [addMessage]

/-- A failed Con turn aborts with the state unchanged: no entry is appended. -/
theorem conTurn_error (o : Oracle) (tfmt : Nat → String) (topic instr : String)
    (st : DebateState)
    (h : o (askMsgs st.conA (renderCtx tfmt topic st) instr) = .error ()) :
    conTurn o tfmt topic instr st = .error (.completion, st) := by
  simp only [conTurn]
  rw [ask_error st.conA o _ instr true h]

/-- A successful topic round (non-quit operator instruction `i`): the
moderator entry, then Pro's entry, then Con's entry are appended in that
order; both turn calls use the fixed opening instruction, Pro's context is
the render including the moderator entry, and Con's context is the render
additionally including Pro's fresh entry. -/
theorem topicRound_ok (o : Oracle) (tfmt : Nat → String) (topic i : String)
    (st : DebateState) (r1 r2 : String)
    (h1 : o (askMsgs st.proA
        (printTranscript tfmt topic st.proA.info st.conA.info false
          (st.transcript ++ [⟨st.clock, st.modA.info, i⟩])) openingInstr) = .ok r1)
    (h2 : o (askMsgs st.conA
        (printTranscript tfmt topic st.proA.info st.conA.info false
          (st.transcript ++ [⟨st.clock, st.modA.info, i⟩,
            ⟨st.clock + 1, st.proA.info, indentParagraphs r1⟩])) openingInstr) = .ok r2) :
    topicRound o tfmt topic i st = .ok
      { clock := st.clock + 3
        transcript := st.transcript ++ [⟨st.clock, st.modA.info, i⟩,
          ⟨st.clock + 1, st.proA.info, indentParagraphs r1⟩,
          ⟨st.clock + 2, st.conA.info, indentParagraphs r2⟩]
        proA := { st.proA with responses := st.proA.responses ++ [r1] }
        conA := { st.conA with responses := st.conA.responses ++ [r2] }
        modA := st.modA
        calls := st.calls ++
          [⟨st.proA.name, printTranscript tfmt topic st.proA.info st.conA.info false
              (st.transcript ++ [⟨st.clock, st.modA.info, i⟩]), openingInstr⟩,
           ⟨st.conA.name, printTranscript tfmt topic st.proA.info st.conA.info false
              (st.transcript ++ [⟨st.clock, st.modA.info, i⟩,
                ⟨st.clock + 1, st.proA.info, indentParagraphs r1⟩]), openingInstr⟩] } := by
  unfold topicRound
  rw [proTurn_ok o tfmt topic openingInstr (modMessage st i) r1 (by
    simpa only [modMessage, addMessage, renderCtx] using h1)]
  simp only []
  rw [conTurn_ok o tfmt topic openingInstr _ r2 (by
    simpa [modMessage, addMessage, renderCtx, AgentState.info, List.append_assoc]
      using h2)]
  simp [modMessage, addMessage, renderCtx, AgentState.info, List.append_assoc]

/-- A successful rebuttal round: Pro's entry then Con's entry are appended,
both with the fixed `Rebuttal.` instruction; no moderator entry is added, and
Con's context render includes Pro's fresh rebuttal. -/
theorem rebuttalRound_ok (o : Oracle) (tfmt : Nat → String) (topic : String)
    (st : DebateState) (r1 r2 : String)
    (h1 : o (askMsgs st.proA
        (printTranscript tfmt topic st.proA.info st.conA.info false st.transcript)
        rebuttalInstr) = .ok r1)
    (h2 : o (askMsgs st.conA
        (printTranscript tfmt topic st.proA.info st.conA.info false
          (st.transcript ++ [⟨st.clock, st.proA.info, indentParagraphs r1⟩]))
        rebuttalInstr) = .ok r2) :
    rebuttalRound o tfmt topic st = .ok
      { clock := st.clock + 2
        transcript := st.transcript ++
          [⟨st.clock, st.proA.info, indentParagraphs r1⟩,
           ⟨st.clock + 1, st.conA.info, indentParagraphs r2⟩]
        proA := { st.proA with responses := st.proA.responses ++ [r1] }
        conA := { st.conA with responses := st.conA.responses ++ [r2] }
        modA := st.modA
        calls := st.calls ++
          [⟨st.proA.name, printTranscript tfmt topic st.proA.info st.conA.info false
              st.transcript, rebuttalInstr⟩,
           ⟨st.conA.name, printTranscript tfmt topic st.proA.info st.conA.info false
              (st.transcript ++ [⟨st.clock, st.proA.info, indentParagraphs r1⟩]),
            rebuttalInstr⟩] } := by
  unfold rebuttalRound
  rw [proTurn_ok o tfmt topic rebuttalInstr st r1 (by
    simpa only [renderCtx] using h1)]
  simp only []
  rw [conTurn_ok o tfmt topic rebuttalInstr _ r2 (by
    simpa [addMessage, renderCtx, AgentState.info, List.append_assoc] using h2)]
  simp [addMessage, renderCtx, AgentState.info, List.append_assoc]

/-- A successful closing phase: the fixed moderator announcement, then Pro's
closing entry, then Con's closing entry, both with the fixed
`Closing statement.` instruction. -/
theorem closingPhase_ok (o : Oracle) (tfmt : Nat → String) (topic : String)
    (st : DebateState) (r1 r2 : String)
    (h1 : o (askMsgs st.proA
        (printTranscript tfmt topic st.proA.info st.conA.info false
          (st.transcript ++ [⟨st.clock, st.modA.info, closingAnnouncement⟩]))
        closingInstr) = .ok r1)
    (h2 : o (askMsgs st.conA
        (printTranscript tfmt topic st.proA.info st.conA.info false
          (st.transcript ++ [⟨st.clock, st.modA.info, closingAnnouncement⟩,
            ⟨st.clock + 1, st.proA.info, indentParagraphs r1⟩])) closingInstr) = .ok r2) :
    closingPhase o tfmt topic st = .ok
      { clock := st.clock + 3
        transcript := st.transcript ++
          [⟨st.clock, st.modA.info, closingAnnouncement⟩,
           ⟨st.clock + 1, st.proA.info, indentParagraphs r1⟩,
           ⟨st.clock + 2, st.conA.info, indentParagraphs r2⟩]
        proA := { st.proA with responses := st.proA.responses ++ [r1] }
        conA := { st.conA with responses := st.conA.responses ++ [r2] }
        modA := st.modA
        calls := st.calls ++
          [⟨st.proA.name, printTranscript tfmt topic st.proA.info st.conA.info false
              (st.transcript ++ [⟨st.clock, st.modA.info, closingAnnouncement⟩]),
            closingInstr⟩,
           ⟨st.conA.name, printTranscript tfmt topic st.proA.info st.conA.info false
              (st.transcript ++ [⟨st.clock, st.modA.info, closingAnnouncement⟩,
                ⟨st.clock + 1, st.proA.info, indentParagraphs r1⟩]),
            closingInstr⟩] } := by
  unfold closingPhase
  rw [proTurn_ok o tfmt topic closingInstr (modMessage st closingAnnouncement) r1 (by
    simpa only [modMessage, addMessage, renderCtx] using h1)]
  simp only []
  rw [conTurn_ok o tfmt topic closingInstr _ r2 (by
    simpa [modMessage, addMessage, renderCtx, AgentState.info, List.append_assoc]
      using h2)]
  simp [modMessage, addMessage, renderCtx, AgentState.info, List.append_assoc]

/-- A topic round in which Pro's completion succeeds but Con's fails: the run
aborts with the moderator entry and Pro's entry appended and retained, and no
Con entry for the round. -/
theorem topicRound_conFail (o : Oracle) (tfmt : Nat → String) (topic i : String)
    (st : DebateState) (r1 : String)
    (h1 : o (askMsgs st.proA
        (printTranscript tfmt topic st.proA.info st.conA.info false
          (st.transcript ++ [⟨st.clock, st.modA.info, i⟩])) openingInstr) = .ok r1)
    (h2 : o (askMsgs st.conA
        (printTranscript tfmt topic st.proA.info st.conA.info false
          (st.transcript ++ [⟨st.clock, st.modA.info, i⟩,
            ⟨st.clock + 1, st.proA.info, indentParagraphs r1⟩])) openingInstr)
      = .error ()) :
    topicRound o tfmt topic i st = .error (.completion,
      { clock := st.clock + 2
        transcript := st.transcript ++ [⟨st.clock, st.modA.info, i⟩,
          ⟨st.clock + 1, st.proA.info, indentParagraphs r1⟩]
        proA := { st.proA with responses := st.proA.responses ++ [r1] }
        conA := st.conA
        modA := st.modA
        calls := st.calls ++
          [⟨st.proA.name, printTranscript tfmt topic st.proA.info st.conA.info false
              (st.transcript ++ [⟨st.clock, st.modA.info, i⟩]), openingInstr⟩] }) := by
  unfold topicRound
  rw [proTurn_ok o tfmt topic openingInstr (modMessage st i) r1 (by
    simpa only [modMessage, addMessage, renderCtx] using h1)]
  simp only []
  rw [conTurn_error o tfmt topic openingInstr _ (by
    simpa [modMessage, addMessage, renderCtx, AgentState.info, List.append_assoc]
      using h2)]
  simp [modMessage, addMessage, renderCtx, AgentState.info, List.append_assoc]

/-- Exhausting the operator input stream aborts the run without reaching the
closing phase. -/
theorem loop_nil (o : Oracle) (tfmt : Nat → String) (topic : String) (m : Mode)
    (st : DebateState) : loop o tfmt topic [] m st = .error (.eof, st) := by
  cases m <;> rfl

/-- The quit sentinel at the outer prompt goes straight to the closing phase,
reading no further operator input. -/
theorem loop_quit (o : Oracle) (tfmt : Nat → String) (topic i : String)
    (rest : List String) (st : DebateState) (h : lowerStr i = "q") :
    loop o tfmt topic (i :: rest) Mode.topicPrompt st = closingPhase o tfmt topic st := by
  simp [loop, h]

/-- A non-quit input at the outer prompt runs a topic round and, on success,
continues at the rebuttal prompt. -/
theorem loop_topic (o : Oracle) (tfmt : Nat → String) (topic i : String)
    (rest : List String) (st : DebateState) (h : lowerStr i ≠ "q") :
    loop o tfmt topic (i :: rest) Mode.topicPrompt st
      = match topicRound o tfmt topic i st with
        | .error e => .error e
        | .ok st2 => loop o tfmt topic rest Mode.rebuttalPrompt st2 := by
  simp [loop, h]

/-- The `n` answer at the rebuttal prompt returns to the outer moderator
prompt with the state untouched. -/
theorem loop_rebuttal_no (o : Oracle) (tfmt : Nat → String) (topic i : String)
    (rest : List String) (st : DebateState) (h : lowerStr i = "n") :
    loop o tfmt topic (i :: rest) Mode.rebuttalPrompt st
      = loop o tfmt topic rest Mode.topicPrompt st := by
  simp [loop, h]

/-- Any answer other than `n` at the rebuttal prompt runs a rebuttal round
and, on success, returns to the rebuttal prompt. -/
theorem loop_rebuttal_yes (o : Oracle) (tfmt : Nat → String) (topic i : String)
    (rest : List String) (st : DebateState) (h : lowerStr i ≠ "n") :
    loop o tfmt topic (i :: rest) Mode.rebuttalPrompt st
      = match rebuttalRound o tfmt topic st with
        | .error e => .error e
        | .ok st2 => loop o tfmt topic rest Mode.rebuttalPrompt st2 := by
  simp [loop, h]

/-- Inversion of a successful Pro turn: the completion call must have
succeeded, and the new state is exactly the one-entry extension. -/
theorem proTurn_ok_inv (o : Oracle) (tfmt : Nat → String) (topic instr : String)
    (st sMid : DebateState) (h : proTurn o tfmt topic instr st = .ok sMid) :
    ∃ r, o (askMsgs st.proA (renderCtx tfmt topic st) instr) = .ok r ∧
      sMid = { st with
        proA := { st.proA with responses := st.proA.responses ++ [r] }
        transcript := st.transcript ++ [⟨st.clock, st.proA.info, indentParagraphs r⟩]
        clock := st.clock + 1
        calls := st.calls ++ [⟨st.proA.name, renderCtx tfmt topic st, instr⟩] } := by
  cases h1 : o (askMsgs st.proA (renderCtx tfmt topic st) instr) with
  | error e =>
      cases e
      rw [proTurn_error o tfmt topic instr st h1] at h
      exact absurd h (by simp)
  | ok r =>
      rw [proTurn_ok o tfmt topic instr st r h1] at h
      exact ⟨r, rfl, (Except.ok.inj h).symm⟩

/-- Inversion of a successful Con turn, symmetric to `proTurn_ok_inv`. -/
theorem conTurn_ok_inv (o : Oracle) (tfmt : Nat → String) (topic instr : String)
    (st sMid : DebateState) (h : conTurn o tfmt topic instr st = .ok sMid) :
    ∃ r, o (askMsgs st.conA (renderCtx tfmt topic st) instr) = .ok r ∧
      sMid = { st with
        conA := { st.conA with responses := st.conA.responses ++ [r] }
        transcript := st.transcript ++ [⟨st.clock, st.conA.info, indentParagraphs r⟩]
        clock := st.clock + 1
        calls := st.calls ++ [⟨st.conA.name, renderCtx tfmt topic st, instr⟩] } := by
  cases h1 : o (askMsgs st.conA (renderCtx tfmt topic st) instr) with
  | error e =>
      cases e
      rw [conTurn_error o tfmt topic instr st h1] at h
      exact absurd h (by simp)
  | ok r =>
      rw [conTurn_ok o tfmt topic instr st r h1] at h
      exact ⟨r, rfl, (Except.ok.inj h).symm⟩

/-! Concrete fixtures used by witnesses and counterexamples. -/

/-- A concrete timestamp rendering for witnesses. -/
def tf0 : Nat → String := fun n => toString n

/-- A completion backend that always answers with the fixed text `s`. -/
def constOk (s : String) : Oracle := fun _ => Except.ok s

/-- A concrete Pro debater. -/
def proW : AgentState := mkDebater "A" "pa" "T" "Pro"

/-- A concrete Con debater. -/
def conW : AgentState := mkDebater "B" "pb" "T" "Con"

/-- The concrete moderator main.py constructs. -/
def modW : AgentState := mkModerator "User" "The User" "T"

/-- A concrete initial controller state. -/
def stW : DebateState := ⟨0, [], proW, conW, modW, []⟩

/-- The state after one successful concrete topic round from `stW`. -/
def stW2 : DebateState :=
  ((topicRound (constOk "ok") tf0 "T" "hi" stW).toOption).getD stW

/-! Claim theorems. -/

/-- C1: in every completed debate round — topic round (opening arguments),
rebuttal round, and closing phase — Pro's utterance is appended to the
transcript strictly before Con's utterance of that round, and each turn call
receives as its context the render of exactly the entries appended before the
call; in particular Con's context render includes Pro's entry of the same
round. -/
theorem c1_pro_before_con_full_context :
    (∀ (o : Oracle) (tfmt : Nat → String) (topic i : String) (st st2 : DebateState),
      topicRound o tfmt topic i st = .ok st2 →
      ∃ mE pE cE pc cc,
        st2.transcript = st.transcript ++ [mE, pE, cE]
        ∧ mE.agent = st.modA.info ∧ pE.agent = st.proA.info ∧ cE.agent = st.conA.info
        ∧ st2.calls = st.calls ++ [pc, cc]
        ∧ pc.agent = st.proA.name ∧ cc.agent = st.conA.name
        ∧ pc.related = printTranscript tfmt topic st.proA.info st.conA.info false
            (st.transcript ++ [mE])
        ∧ cc.related = printTranscript tfmt topic st.proA.info st.conA.info false
            (st.transcript ++ [mE, pE]))
    ∧ (∀ (o : Oracle) (tfmt : Nat → String) (topic : String) (st st2 : DebateState),
      rebuttalRound o tfmt topic st = .ok st2 →
      ∃ pE cE pc cc,
        st2.transcript = st.transcript ++ [pE, cE]
        ∧ pE.agent = st.proA.info ∧ cE.agent = st.conA.info
        ∧ st2.calls = st.calls ++ [pc, cc]
        ∧ pc.agent = st.proA.name ∧ cc.agent = st.conA.name
        ∧ pc.related = printTranscript tfmt topic st.proA.info st.conA.info false
            st.transcript
        ∧ cc.related = printTranscript tfmt topic st.proA.info st.conA.info false
            (st.transcript ++ [pE]))
    ∧ (∀ (o : Oracle) (tfmt : Nat → String) (topic : String) (st st2 : DebateState),
      closingPhase o tfmt topic st = .ok st2 →
      ∃ mE pE cE pc cc,
        st2.transcript = st.transcript ++ [mE, pE, cE]
        ∧ mE.agent = st.modA.info ∧ pE.agent = st.proA.info ∧ cE.agent = st.conA.info
        ∧ st2.calls = st.calls ++ [pc, cc]
        ∧ pc.agent = st.proA.name ∧ cc.agent = st.conA.name
        ∧ pc.related = printTranscript tfmt topic st.proA.info st.conA.info false
            (st.transcript ++ [mE])
        ∧ cc.related = printTranscript tfmt topic st.proA.info st.conA.info false
            (st.transcript ++ [mE, pE])) := by
  refine ⟨?_, ?_, ?_⟩
  · intro o tfmt topic i st st2 h
    unfold topicRound at h
    cases hp : proTurn o tfmt topic openingInstr (modMessage st i) with
    | error e => rw [hp] at h; simp at h
    | ok sMid =>
        rw [hp] at h
        simp only [] at h
        obtain ⟨r1, _, hMid⟩ := proTurn_ok_inv _ _ _ _ _ _ hp
        obtain ⟨r2, _, hFin⟩ := conTurn_ok_inv _ _ _ _ _ _ h
        subst hMid
        subst hFin
        refine ⟨⟨st.clock, st.modA.info, i⟩,
          ⟨st.clock + 1, st.proA.info, indentParagraphs r1⟩,
          ⟨st.clock + 2, st.conA.info, indentParagraphs r2⟩,
          ⟨st.proA.name, printTranscript tfmt topic st.proA.info st.conA.info false
            (st.transcript ++ [⟨st.clock, st.modA.info, i⟩]), openingInstr⟩,
          ⟨st.conA.name, printTranscript tfmt topic st.proA.info st.conA.info false
            (st.transcript ++ [⟨st.clock, st.modA.info, i⟩,
              ⟨st.clock + 1, st.proA.info, indentParagraphs r1⟩]), openingInstr⟩,
          ?_, ?_, ?_, ?_, ?_, ?_, ?_, ?_, ?_⟩ <;>
          simp [modMessage, addMessage, renderCtx, AgentState.info, List.append_assoc]
  · intro o tfmt topic st st2 h
    unfold rebuttalRound at h
    cases hp : proTurn o tfmt topic rebuttalInstr st with
    | error e => rw [hp] at h; simp at h
    | ok sMid =>
        rw [hp] at h
        simp only [] at h
        obtain ⟨r1, _, hMid⟩ := proTurn_ok_inv _ _ _ _ _ _ hp
        obtain ⟨r2, _, hFin⟩ := conTurn_ok_inv _ _ _ _ _ _ h
        subst hMid
        subst hFin
        refine ⟨⟨st.clock, st.proA.info, indentParagraphs r1⟩,
          ⟨st.clock + 1, st.conA.info, indentParagraphs r2⟩,
          ⟨st.proA.name, printTranscript tfmt topic st.proA.info st.conA.info false
            st.transcript, rebuttalInstr⟩,
          ⟨st.conA.name, printTranscript tfmt topic st.proA.info st.conA.info false
            (st.transcript ++ [⟨st.clock, st.proA.info, indentParagraphs r1⟩]),
            rebuttalInstr⟩,
          ?_, ?_, ?_, ?_, ?_, ?_, ?_, ?_⟩ <;>
          simp [addMessage, renderCtx, AgentState.info, List.append_assoc]
  · intro o tfmt topic st st2 h
    unfold closingPhase at h
    cases hp : proTurn o tfmt topic closingInstr (modMessage st closingAnnouncement) with
    | error e => rw [hp] at h; simp at h
    | ok sMid =>
        rw [hp] at h
        simp only [] at h
        obtain ⟨r1, _, hMid⟩ := proTurn_ok_inv _ _ _ _ _ _ hp
        obtain ⟨r2, _, hFin⟩ := conTurn_ok_inv _ _ _ _ _ _ h
        subst hMid
        subst hFin
        refine ⟨⟨st.clock, st.modA.info, closingAnnouncement⟩,
          ⟨st.clock + 1, st.proA.info, indentParagraphs r1⟩,
          ⟨st.clock + 2, st.conA.info, indentParagraphs r2⟩,
          ⟨st.proA.name, printTranscript tfmt topic st.proA.info st.conA.info false
            (st.transcript ++ [⟨st.clock, st.modA.info, closingAnnouncement⟩]),
            closingInstr⟩,
          ⟨st.conA.name, printTranscript tfmt topic st.proA.info st.conA.info false
            (st.transcript ++ [⟨st.clock, st.modA.info, closingAnnouncement⟩,
              ⟨st.clock + 1, st.proA.info, indentParagraphs r1⟩]), closingInstr⟩,
          ?_, ?_, ?_, ?_, ?_, ?_, ?_, ?_, ?_⟩ <;>
          simp [modMessage, addMessage, renderCtx, AgentState.info, List.append_assoc]

/-- The state after one successful concrete rebuttal round from `stW`. -/
def stW3 : DebateState :=
  ((rebuttalRound (constOk "ok") tf0 "T" stW).toOption).getD stW

/-- The state after one successful concrete closing phase from `stW`. -/
def stW4 : DebateState :=
  ((closingPhase (constOk "ok") tf0 "T" stW).toOption).getD stW

/-- Witness for C1: the three round kinds run on a concrete state with a
concrete backend, discharging each success hypothesis. -/
theorem c1_witness :
    (∃ mE pE cE pc cc,
      stW2.transcript = stW.transcript ++ [mE, pE, cE]
      ∧ mE.agent = stW.modA.info ∧ pE.agent = stW.proA.info ∧ cE.agent = stW.conA.info
      ∧ stW2.calls = stW.calls ++ [pc, cc]
      ∧ pc.agent = stW.proA.name ∧ cc.agent = stW.conA.name
      ∧ pc.related = printTranscript tf0 "T" stW.proA.info stW.conA.info false
          (stW.transcript ++ [mE])
      ∧ cc.related = printTranscript tf0 "T" stW.proA.info stW.conA.info false
          (stW.transcript ++ [mE, pE]))
    ∧ (∃ pE cE pc cc,
      stW3.transcript = stW.transcript ++ [pE, cE]
      ∧ pE.agent = stW.proA.info ∧ cE.agent = stW.conA.info
      ∧ stW3.calls = stW.calls ++ [pc, cc]
      ∧ pc.agent = stW.proA.name ∧ cc.agent = stW.conA.name
      ∧ pc.related = printTranscript tf0 "T" stW.proA.info stW.conA.info false
          stW.transcript
      ∧ cc.related = printTranscript tf0 "T" stW.proA.info stW.conA.info false
          (stW.transcript ++ [pE]))
    ∧ (∃ mE pE cE pc cc,
      stW4.transcript = stW.transcript ++ [mE, pE, cE]
      ∧ mE.agent = stW.modA.info ∧ pE.agent = stW.proA.info ∧ cE.agent = stW.conA.info
      ∧ stW4.calls = stW.calls ++ [pc, cc]
      ∧ pc.agent = stW.proA.name ∧ cc.agent = stW.conA.name
      ∧ pc.related = printTranscript tf0 "T" stW.proA.info stW.conA.info false
          (stW.transcript ++ [mE])
      ∧ cc.related = printTranscript tf0 "T" stW.proA.info stW.conA.info false
          (stW.transcript ++ [mE, pE])) :=
  ⟨c1_pro_before_con_full_context.1 (constOk "ok") tf0 "T" "hi" stW stW2 (by rfl),
   c1_pro_before_con_full_context.2.1 (constOk "ok") tf0 "T" stW stW3 (by rfl),
   c1_pro_before_con_full_context.2.2 (constOk "ok") tf0 "T" stW stW4 (by rfl)⟩

/-- C2: `print_transcript` is a pure function of the entry sequence (it is a
function of `msgs` and the fixed banner parameters, so two calls with no
entries added in between are byte-identical by reflexivity), and its output is
the fixed banner (topic line and `Pro: X  |  Con: Y` line), followed by one
block per entry in append order — the `[timestamp] Speaker (role):` head, a
newline, a tab and the message, closed by the fixed-width dash divider — with
the end-of-debate marker appended iff `final`. -/
theorem c2_render_pure_format (tfmt : Nat → String) (topic : String)
    (pro con : AgentInfo) (final : Bool) (msgs : List Entry) :
    printTranscript tfmt topic pro con final msgs
      = bannerStr topic pro con ++ joinStr (msgs.map (entryBlock tfmt))
        ++ (if final then endMarker else "")
    ∧ (∀ e : Entry, entryBlock tfmt e
        = "[" ++ tfmt e.tstamp ++ "] " ++ e.agent.name ++ " (" ++ e.agent.side
          ++ "):" ++ "\n" ++ "\t" ++ e.message ++ "\n" ++ dashDivider ++ "\n\n") :=
  ⟨printTranscript_decomp tfmt topic pro con final msgs, fun e => by
    simp [entryBlock, entryLine, String.append_assoc]⟩

/-- C9: `print_last_message` returns the empty string on an empty transcript,
and otherwise exactly one block for the most recent entry in the same
per-entry format `entryLine` that `print_transcript` uses (here closed by a
blank line rather than the dash divider). -/
theorem c9_renderLast (tfmt : Nat → String) :
    printLastMessage tfmt [] = ""
    ∧ ∀ (msgs : List Entry) (e : Entry),
        printLastMessage tfmt (msgs ++ [e]) = entryLine tfmt e ++ "\n" := by
  refine ⟨rfl, fun msgs e => ?_⟩
  unfold printLastMessage
  rw [List.getLast?_concat]
  simp [entryLine, String.append_assoc,
    show ("\n\n" : String) = "\n" ++ "\n" from rfl]

/-- C3: contrary to the claim (and to the constructor's own docstring, which
documents a `ValueError` for an invalid side), constructing a `Debater` with a
stance that is neither `Pro` nor `Con`, and with empty name and persona,
succeeds and yields a fully usable participant: the bogus stance and empty
identity are stored verbatim and `ask` works on the resulting agent. -/
theorem c3_no_construction_validation :
    (mkDebater "" "" "T" "Banana").side = "Banana"
    ∧ (mkDebater "" "" "T" "Banana").name = ""
    ∧ (mkDebater "" "" "T" "Banana").persona = ""
    ∧ ask (mkDebater "" "" "T" "Banana") (constOk "ok") "" "go" false
        = .ok ("ok", { mkDebater "" "" "T" "Banana" with responses := ["ok"] }) :=
  ⟨rfl, rfl, rfl, rfl⟩

/-- C4: a `CompletionError` during a turn aborts the turn with no transcript
entry appended for it and every earlier entry retained unchanged; in
particular, when Con's completion fails after Pro succeeded in a topic round,
the moderator entry and Pro's entry are retained and no Con entry exists for
that round. -/
theorem c4_completion_failure_preserves_transcript :
    (∀ (o : Oracle) (tfmt : Nat → String) (topic instr : String) (st : DebateState),
      o (askMsgs st.proA (renderCtx tfmt topic st) instr) = .error () →
      proTurn o tfmt topic instr st = .error (.completion, st))
    ∧ (∀ (o : Oracle) (tfmt : Nat → String) (topic instr : String) (st : DebateState),
      o (askMsgs st.conA (renderCtx tfmt topic st) instr) = .error () →
      conTurn o tfmt topic instr st = .error (.completion, st))
    ∧ (∀ (o : Oracle) (tfmt : Nat → String) (topic i : String) (st : DebateState)
        (r1 : String),
      o (askMsgs st.proA
          (printTranscript tfmt topic st.proA.info st.conA.info false
            (st.transcript ++ [⟨st.clock, st.modA.info, i⟩])) openingInstr) = .ok r1 →
      o (askMsgs st.conA
          (printTranscript tfmt topic st.proA.info st.conA.info false
            (st.transcript ++ [⟨st.clock, st.modA.info, i⟩,
              ⟨st.clock + 1, st.proA.info, indentParagraphs r1⟩])) openingInstr)
        = .error () →
      topicRound o tfmt topic i st = .error (.completion,
        { clock := st.clock + 2
          transcript := st.transcript ++ [⟨st.clock, st.modA.info, i⟩,
            ⟨st.clock + 1, st.proA.info, indentParagraphs r1⟩]
          proA := { st.proA with responses := st.proA.responses ++ [r1] }
          conA := st.conA
          modA := st.modA
          calls := st.calls ++
            [⟨st.proA.name, printTranscript tfmt topic st.proA.info st.conA.info false
                (st.transcript ++ [⟨st.clock, st.modA.info, i⟩]), openingInstr⟩] })) :=
  ⟨proTurn_error, conTurn_error, topicRound_conFail⟩

/-- A completion backend that always fails, for exercising the failure path. -/
def constErr : Oracle := fun _ => Except.error ()

/-- A completion backend that fails exactly on calls made on behalf of a
`Con`-side debater (recognized by the stance system message) and answers
`ok` otherwise. -/
def failsCon : Oracle := fun ms =>
  if ms.any fun m =>
      m.content = "You are on the Con side of the argument.  You should always argue in favor of your side."
  then Except.error () else Except.ok "ok"

/-- Witness for C4: a concrete failing Pro turn, a concrete failing Con turn,
and a concrete topic round where Pro succeeds and Con fails. -/
theorem c4_witness :
    proTurn constErr tf0 "T" "I" stW = .error (.completion, stW)
    ∧ conTurn constErr tf0 "T" "I" stW = .error (.completion, stW)
    ∧ topicRound failsCon tf0 "T" "hi" stW = .error (.completion,
      { clock := stW.clock + 2
        transcript := stW.transcript ++ [⟨stW.clock, stW.modA.info, "hi"⟩,
          ⟨stW.clock + 1, stW.proA.info, indentParagraphs "ok"⟩]
        proA := { stW.proA with responses := stW.proA.responses ++ ["ok"] }
        conA := stW.conA
        modA := stW.modA
        calls := stW.calls ++
          [⟨stW.proA.name, printTranscript tf0 "T" stW.proA.info stW.conA.info false
              (stW.transcript ++ [⟨stW.clock, stW.modA.info, "hi"⟩]), openingInstr⟩] }) :=
  ⟨c4_completion_failure_preserves_transcript.1 constErr tf0 "T" "I" stW rfl,
   c4_completion_failure_preserves_transcript.2.1 constErr tf0 "T" "I" stW rfl,
   c4_completion_failure_preserves_transcript.2.2 failsCon tf0 "T" "hi" stW "ok"
     rfl rfl⟩

/-- C5: a quit-sentinel operator input (any string lowering to `q`) at the
outer moderator prompt reads no further operator input and goes straight to
closing: exactly the fixed moderator closing announcement, Pro's closing
entry, and Con's closing entry are appended (both turns with the fixed
instruction `Closing statement.`), and the finalized transcript render is
exported. -/
theorem c5_quit_direct_to_closing (o : Oracle) (tfmt : Nat → String)
    (topic i : String) (rest : List String) (st : DebateState) (r1 r2 : String)
    (hq : lowerStr i = "q")
    (h1 : o (askMsgs st.proA
        (printTranscript tfmt topic st.proA.info st.conA.info false
          (st.transcript ++ [⟨st.clock, st.modA.info, closingAnnouncement⟩]))
        closingInstr) = .ok r1)
    (h2 : o (askMsgs st.conA
        (printTranscript tfmt topic st.proA.info st.conA.info false
          (st.transcript ++ [⟨st.clock, st.modA.info, closingAnnouncement⟩,
            ⟨st.clock + 1, st.proA.info, indentParagraphs r1⟩])) closingInstr)
      = .ok r2) :
    runLoopAndSave o tfmt topic (i :: rest) st = .ok
      ({ clock := st.clock + 3
         transcript := st.transcript ++
           [⟨st.clock, st.modA.info, closingAnnouncement⟩,
            ⟨st.clock + 1, st.proA.info, indentParagraphs r1⟩,
            ⟨st.clock + 2, st.conA.info, indentParagraphs r2⟩]
         proA := { st.proA with responses := st.proA.responses ++ [r1] }
         conA := { st.conA with responses := st.conA.responses ++ [r2] }
         modA := st.modA
         calls := st.calls ++
           [⟨st.proA.name, printTranscript tfmt topic st.proA.info st.conA.info false
               (st.transcript ++ [⟨st.clock, st.modA.info, closingAnnouncement⟩]),
             closingInstr⟩,
            ⟨st.conA.name, printTranscript tfmt topic st.proA.info st.conA.info false
               (st.transcript ++ [⟨st.clock, st.modA.info, closingAnnouncement⟩,
                 ⟨st.clock + 1, st.proA.info, indentParagraphs r1⟩]), closingInstr⟩] },
       printTranscript tfmt topic st.proA.info st.conA.info true
         (st.transcript ++
           [⟨st.clock, st.modA.info, closingAnnouncement⟩,
            ⟨st.clock + 1, st.proA.info, indentParagraphs r1⟩,
            ⟨st.clock + 2, st.conA.info, indentParagraphs r2⟩])) := by
  unfold runLoopAndSave
  rw [loop_quit o tfmt topic i rest st hq]
  rw [closingPhase_ok o tfmt topic st r1 r2 h1 h2]
  simp [saveTranscript, AgentState.info]

/-- Witness for C5: the quit sentinel given in upper case (`Q`), with a junk
remainder of the input stream that is provably never read. -/
theorem c5_witness :
    runLoopAndSave (constOk "ok") tf0 "T" ["Q", "junk"] stW = .ok
      ({ clock := stW.clock + 3
         transcript := stW.transcript ++
           [⟨stW.clock, stW.modA.info, closingAnnouncement⟩,
            ⟨stW.clock + 1, stW.proA.info, indentParagraphs "ok"⟩,
            ⟨stW.clock + 2, stW.conA.info, indentParagraphs "ok"⟩]
         proA := { stW.proA with responses := stW.proA.responses ++ ["ok"] }
         conA := { stW.conA with responses := stW.conA.responses ++ ["ok"] }
         modA := stW.modA
         calls := stW.calls ++
           [⟨stW.proA.name, printTranscript tf0 "T" stW.proA.info stW.conA.info false
               (stW.transcript ++ [⟨stW.clock, stW.modA.info, closingAnnouncement⟩]),
             closingInstr⟩,
            ⟨stW.conA.name, printTranscript tf0 "T" stW.proA.info stW.conA.info false
               (stW.transcript ++ [⟨stW.clock, stW.modA.info, closingAnnouncement⟩,
                 ⟨stW.clock + 1, stW.proA.info, indentParagraphs "ok"⟩]), closingInstr⟩] },
       printTranscript tf0 "T" stW.proA.info stW.conA.info true
         (stW.transcript ++
           [⟨stW.clock, stW.modA.info, closingAnnouncement⟩,
            ⟨stW.clock + 1, stW.proA.info, indentParagraphs "ok"⟩,
            ⟨stW.clock + 2, stW.conA.info, indentParagraphs "ok"⟩])) :=
  c5_quit_direct_to_closing (constOk "ok") tf0 "T" "Q" ["junk"] stW "ok" "ok"
    (by decide) rfl rfl

/-- C10: at the rebuttal-continuation prompt, exactly the inputs whose
lowercase form is `n` exit back to the outer moderator prompt; every other
input — the quit sentinel `q` and the empty string included — runs another
rebuttal round (Pro's entry then Con's entry, both with the fixed instruction
`Rebuttal.`) and returns to the rebuttal prompt. -/
theorem c10_rebuttal_decision :
    (∀ (o : Oracle) (tfmt : Nat → String) (topic i : String) (rest : List String)
      (st : DebateState), lowerStr i = "n" →
      loop o tfmt topic (i :: rest) Mode.rebuttalPrompt st
        = loop o tfmt topic rest Mode.topicPrompt st)
    ∧ (∀ (o : Oracle) (tfmt : Nat → String) (topic i : String) (rest : List String)
      (st : DebateState) (r1 r2 : String), lowerStr i ≠ "n" →
      o (askMsgs st.proA
          (printTranscript tfmt topic st.proA.info st.conA.info false st.transcript)
          rebuttalInstr) = .ok r1 →
      o (askMsgs st.conA
          (printTranscript tfmt topic st.proA.info st.conA.info false
            (st.transcript ++ [⟨st.clock, st.proA.info, indentParagraphs r1⟩]))
          rebuttalInstr) = .ok r2 →
      loop o tfmt topic (i :: rest) Mode.rebuttalPrompt st
        = loop o tfmt topic rest Mode.rebuttalPrompt
          { clock := st.clock + 2
            transcript := st.transcript ++
              [⟨st.clock, st.proA.info, indentParagraphs r1⟩,
               ⟨st.clock + 1, st.conA.info, indentParagraphs r2⟩]
            proA := { st.proA with responses := st.proA.responses ++ [r1] }
            conA := { st.conA with responses := st.conA.responses ++ [r2] }
            modA := st.modA
            calls := st.calls ++
              [⟨st.proA.name, printTranscript tfmt topic st.proA.info st.conA.info
                  false st.transcript, rebuttalInstr⟩,
               ⟨st.conA.name, printTranscript tfmt topic st.proA.info st.conA.info
                  false (st.transcript ++
                    [⟨st.clock, st.proA.info, indentParagraphs r1⟩]),
                rebuttalInstr⟩] }) := by
  constructor
  · intro o tfmt topic i rest st h
    exact loop_rebuttal_no o tfmt topic i rest st h
  · intro o tfmt topic i rest st r1 r2 h h1 h2
    rw [loop_rebuttal_yes o tfmt topic i rest st h]
    rw [rebuttalRound_ok o tfmt topic st r1 r2 h1 h2]

/-- Witness for C10: upper-case `N` exits to the outer prompt; `q` and the
empty string each run a rebuttal round instead of exiting or quitting. -/
theorem c10_witness :
    loop (constOk "ok") tf0 "T" ["N"] Mode.rebuttalPrompt stW
      = loop (constOk "ok") tf0 "T" [] Mode.topicPrompt stW
    ∧ loop (constOk "ok") tf0 "T" ["q"] Mode.rebuttalPrompt stW
      = loop (constOk "ok") tf0 "T" [] Mode.rebuttalPrompt stW3
    ∧ loop (constOk "ok") tf0 "T" [""] Mode.rebuttalPrompt stW
      = loop (constOk "ok") tf0 "T" [] Mode.rebuttalPrompt stW3 :=
  ⟨c10_rebuttal_decision.1 (constOk "ok") tf0 "T" "N" [] stW (by decide),
   c10_rebuttal_decision.2 (constOk "ok") tf0 "T" "q" [] stW "ok" "ok"
     (by decide) rfl rfl,
   c10_rebuttal_decision.2 (constOk "ok") tf0 "T" "" [] stW "ok" "ok"
     (by decide) rfl rfl⟩

/-- Counterexample for C6: in a concrete topic round where the operator's
instruction is `hi`, the instruction argument actually passed to Pro's (and
Con's) `ask` is the fixed opening instruction, not the operator's text. -/
theorem c6_counterexample :
    topicRound (constOk "ok") tf0 "T" "hi" stW = .ok stW2
    ∧ stW2.calls.map CallRec.agent = ["A", "B"]
    ∧ stW2.calls.map CallRec.instr = [openingInstr, openingInstr]
    ∧ openingInstr ≠ "hi"
    ∧ stW2.transcript.map Entry.message = ["hi", "ok", "ok"] :=
  ⟨rfl, by decide, by decide, by decide, by decide⟩

/-- C6 (amended): a non-quit operator instruction is appended to the
transcript as a moderator entry and is thereby part of the rendered context
passed to Pro's call; the instruction argument of Pro's (and Con's) call is
the fixed string `Make your opening argument to the moderator's prompt.`,
not the operator's text. -/
theorem c6_moderator_text_in_context_not_instruction (o : Oracle)
    (tfmt : Nat → String) (topic i : String) (rest : List String)
    (st : DebateState) (r1 r2 : String) (hq : lowerStr i ≠ "q")
    (h1 : o (askMsgs st.proA
        (printTranscript tfmt topic st.proA.info st.conA.info false
          (st.transcript ++ [⟨st.clock, st.modA.info, i⟩])) openingInstr) = .ok r1)
    (h2 : o (askMsgs st.conA
        (printTranscript tfmt topic st.proA.info st.conA.info false
          (st.transcript ++ [⟨st.clock, st.modA.info, i⟩,
            ⟨st.clock + 1, st.proA.info, indentParagraphs r1⟩])) openingInstr)
      = .ok r2) :
    loop o tfmt topic (i :: rest) Mode.topicPrompt st
      = loop o tfmt topic rest Mode.rebuttalPrompt
        { clock := st.clock + 3
          transcript := st.transcript ++ [⟨st.clock, st.modA.info, i⟩,
            ⟨st.clock + 1, st.proA.info, indentParagraphs r1⟩,
            ⟨st.clock + 2, st.conA.info, indentParagraphs r2⟩]
          proA := { st.proA with responses := st.proA.responses ++ [r1] }
          conA := { st.conA with responses := st.conA.responses ++ [r2] }
          modA := st.modA
          calls := st.calls ++
            [⟨st.proA.name, printTranscript tfmt topic st.proA.info st.conA.info false
                (st.transcript ++ [⟨st.clock, st.modA.info, i⟩]), openingInstr⟩,
             ⟨st.conA.name, printTranscript tfmt topic st.proA.info st.conA.info false
                (st.transcript ++ [⟨st.clock, st.modA.info, i⟩,
                  ⟨st.clock + 1, st.proA.info, indentParagraphs r1⟩]),
              openingInstr⟩] } := by
  rw [loop_topic o tfmt topic i rest st hq]
  rw [topicRound_ok o tfmt topic i st r1 r2 h1 h2]

/-- Witness for C6 (amended): the concrete round behind `stW2`, run through
the loop step with a non-quit input. -/
theorem c6_witness :
    loop (constOk "ok") tf0 "T" ["hi"] Mode.topicPrompt stW
      = loop (constOk "ok") tf0 "T" [] Mode.rebuttalPrompt stW2 :=
  c6_moderator_text_in_context_not_instruction (constOk "ok") tf0 "T" "hi" [] stW
    "ok" "ok" (by decide) rfl rfl

/-- The state after a concrete Pro turn whose raw response contains a line
break. -/
def c7St : DebateState :=
  ((proTurn (constOk "A\nB") tf0 "T" "I" stW).toOption).getD stW

/-- Counterexample for C7: with a raw response `A\nB`, the text stored in the
transcript is the indented variant `A\n\tB` (because main.py passes `ask`'s
returned text, produced with the default `indent_paragraphs=True`, straight
to `add_message`), not the raw text. -/
theorem c7_counterexample :
    proTurn (constOk "A\nB") tf0 "T" "I" stW = .ok c7St
    ∧ c7St.transcript.map Entry.message = ["A\n\tB"]
    ∧ "A\n\tB" = indentParagraphs "A\nB"
    ∧ "A\n\tB" ≠ "A\nB"
    ∧ c7St.transcript.map Entry.message ≠ ["A\nB"]
    ∧ c7St.proA.responses = ["A\nB"] :=
  ⟨rfl, by decide, by decide, by decide, by decide, by decide⟩

/-- C7 (amended): the paragraph-indentation option only rewrites the text
`ask` returns (line break becomes line break plus tab; with the option off the
raw text is returned); but since the debate loop stores `ask`'s returned text,
the transcript entry — and hence every later rendered context — carries the
indented variant, while the raw text is retained only in the agent's
`responses` list. -/
theorem c7_indentation_is_stored (o : Oracle) :
    (∀ (a : AgentState) (rt mp r : String), o (askMsgs a rt mp) = .ok r →
      ask a o rt mp true = .ok (indentParagraphs r,
        { a with responses := a.responses ++ [r] })
      ∧ ask a o rt mp false = .ok (r, { a with responses := a.responses ++ [r] }))
    ∧ (∀ (tfmt : Nat → String) (topic instr : String) (st : DebateState) (r : String),
      o (askMsgs st.proA (renderCtx tfmt topic st) instr) = .ok r →
      proTurn o tfmt topic instr st = .ok
        { st with
          proA := { st.proA with responses := st.proA.responses ++ [r] }
          transcript := st.transcript ++ [⟨st.clock, st.proA.info, indentParagraphs r⟩]
          clock := st.clock + 1
          calls := st.calls ++ [⟨st.proA.name, renderCtx tfmt topic st, instr⟩] }) :=
  ⟨fun a rt mp r h => ⟨by simpa using ask_ok a o rt mp true r h,
    by simpa using ask_ok a o rt mp false r h⟩,
   fun tfmt topic instr st r h => proTurn_ok o tfmt topic instr st r h⟩

/-- Witness for C7 (amended): both `ask` variants and the storing turn on
concrete inputs. -/
theorem c7_witness :
    (ask proW (constOk "A\nB") "c" "i" true = .ok (indentParagraphs "A\nB",
        { proW with responses := proW.responses ++ ["A\nB"] })
      ∧ ask proW (constOk "A\nB") "c" "i" false = .ok ("A\nB",
        { proW with responses := proW.responses ++ ["A\nB"] }))
    ∧ proTurn (constOk "A\nB") tf0 "T" "I" stW = .ok
        { stW with
          proA := { stW.proA with responses := stW.proA.responses ++ ["A\nB"] }
          transcript := stW.transcript ++
            [⟨stW.clock, stW.proA.info, indentParagraphs "A\nB"⟩]
          clock := stW.clock + 1
          calls := stW.calls ++
            [⟨stW.proA.name, renderCtx tf0 "T" stW, "I"⟩] } :=
  ⟨(c7_indentation_is_stored (constOk "A\nB")).1 proW "c" "i" "A\nB" rfl,
   (c7_indentation_is_stored (constOk "A\nB")).2 tf0 "T" "I" stW "A\nB" rfl⟩

/-- Counterexample for C8: the record `ask` appends to the participant's call
history contains neither the context nor the instruction — two calls whose
contexts (resp. instructions) differ produce byte-identical participant
states and results, so no record field can contain them.  (The source appends
only the raw API response object to `self.responses`; no record
`{context, instruction, resultText}` exists.) -/
theorem c8_counterexample :
    ask proW (constOk "R") "CtxA" "I" true = ask proW (constOk "R") "CtxB" "I" true
    ∧ "CtxA" ≠ "CtxB"
    ∧ ask proW (constOk "R") "Ctx" "I1" true = ask proW (constOk "R") "Ctx" "I2" true
    ∧ "I1" ≠ "I2" :=
  ⟨rfl, by decide, rfl, by decide⟩

/-- C8 (amended): a successful `ask` has exactly one side effect on the
participant: the raw response text is appended to `responses` (the stored
record carries neither the context nor the instruction); the persona
system-message list — the directives presented to the model — and every other
field are unchanged, so the directives are identical no matter how many turns
preceded the call. -/
theorem c8_single_side_effect (a : AgentState) (o : Oracle) (rt mp : String)
    (ind : Bool) (r : String) (h : o (askMsgs a rt mp) = .ok r) :
    ask a o rt mp ind
      = .ok ((if ind then indentParagraphs r else r),
             { a with responses := a.responses ++ [r] })
    ∧ ({ a with responses := a.responses ++ [r] } : AgentState).messages = a.messages
    ∧ ({ a with responses := a.responses ++ [r] } : AgentState).name = a.name
    ∧ ({ a with responses := a.responses ++ [r] } : AgentState).persona = a.persona :=
  ⟨ask_ok a o rt mp ind r h, rfl, rfl, rfl⟩

/-- Witness for C8 (amended): a concrete successful call. -/
theorem c8_witness :
    ask proW (constOk "R") "c" "i" true
      = .ok ((if true then indentParagraphs "R" else "R"),
             { proW with responses := proW.responses ++ ["R"] })
    ∧ ({ proW with responses := proW.responses ++ ["R"] } : AgentState).messages
        = proW.messages
    ∧ ({ proW with responses := proW.responses ++ ["R"] } : AgentState).name
        = proW.name
    ∧ ({ proW with responses := proW.responses ++ ["R"] } : AgentState).persona
        = proW.persona :=
  c8_single_side_effect proW (constOk "R") "c" "i" true "R" rfl

end DebatingAgents
